import Mathlib

set_option maxRecDepth 8000

/-!
# Verification of the moonlight-analytica trading core

Shallow embedding of the risk-management and backtesting core of the
repository (`src/robinhood-trading-system/src/risk_management.py` and
`src/robinhood-trading-system/src/backtester.py`) together with proofs
settling the specification claims about it.

Modelling conventions:
* Python `float` money/price values are modelled by `ℚ` (exact arithmetic);
  Python `int` share counts by `ℤ`; `datetime` values by `ℤ` day numbers
  (`datetime.now()` becomes an explicit `now : ℤ` argument, and two
  `datetime`s fall on the same calendar date iff the day numbers are equal).
* Python `int(x)` truncates toward zero; `pyInt` below reproduces that.
* Python dictionaries keyed by symbol are modelled by lists kept in
  insertion order (the order Python iterates them in).
* Message strings produced by the code interpolate formatted numbers; the
  embedding keeps the fixed text of each message and drops only the
  interpolated number formatting, which no claim depends on.  The
  `risk_analysis` dictionary returned by `calculate_position_size` is
  modelled by its `constraints` list together with the returned size and
  share count (the remaining dictionary entries are derived reporting
  values recomputed from the inputs).
* Database writes and logging calls have no effect on the account state
  and are omitted.
-/

/-- Python `int()` applied to an exact rational: truncation toward zero
(floor for non-negative arguments, ceiling for negative ones). -/
def pyInt (q : ℚ) : ℤ := if 0 ≤ q then ⌊q⌋ else ⌈q⌉

namespace RH

/-- The `Position` dataclass from `risk_management.py` (lines 13-27). -/
structure Position where
  symbol : String
  entry_date : ℤ
  entry_price : ℚ
  quantity : ℤ
  position_type : String
  stop_loss : ℚ
  target : ℚ
  strategy : String
  max_favorable_excursion : ℚ := 0
  max_adverse_excursion : ℚ := 0
  current_price : ℚ := 0
  unrealized_pnl : ℚ := 0
deriving Repr, DecidableEq

/-- The `Position.update_price` (risk_management.py lines 29-46): record the
current price, recompute unrealized P&L and update MFE/MAE. -/
def Position.update_price (p : Position) (current_price : ℚ) : Position :=
  let unrealized_pnl :=
    if p.position_type = "long" then (current_price - p.entry_price) * (p.quantity : ℚ)
    else (p.entry_price - current_price) * (p.quantity : ℚ)
  let favorable_move :=
    if p.position_type = "long" then current_price - p.entry_price
    else p.entry_price - current_price
  let adverse_move :=
    if p.position_type = "long" then p.entry_price - current_price
    else current_price - p.entry_price
  { p with
    current_price := current_price
    unrealized_pnl := unrealized_pnl
    max_favorable_excursion :=
      if p.max_favorable_excursion < favorable_move then favorable_move
      else p.max_favorable_excursion
    max_adverse_excursion :=
      if p.max_adverse_excursion < adverse_move then adverse_move
      else p.max_adverse_excursion }

/-- The `RiskManager` mutable account state plus the configuration scalars read
in `__init__` (risk_management.py lines 88-136).  Field defaults are the
default configuration of `_load_config` (initial balance 10000, 10% max
position size, 20% cash reserve, 2% max position risk, $100 max daily
loss, 3 consecutive losses, PDT limit 3 with $25,000 minimum); the equity
curve is modelled by its list of equity values. -/
structure RiskManager where
  account_balance : ℚ := 10000
  monthly_budget : ℚ := 1000
  max_position_pct : ℚ := 10
  reserve_cash_pct : ℚ := 20
  max_portfolio_risk : ℚ := 6
  max_position_risk : ℚ := 2
  max_daily_loss : ℚ := 100
  max_consecutive_losses : ℤ := 3
  pdt_limit : ℤ := 3
  account_minimum : ℚ := 25000
  positions : List Position := []
  cash_available : ℚ := 10000
  daily_pnl : ℚ := 0
  realized_pnl : ℚ := 0
  day_trades : List ℤ := []
  consecutive_losses : ℤ := 0
  trading_suspended : Bool := false
  suspension_reason : String := ""
  equity_curve : List ℚ := []
deriving Repr, DecidableEq

/-- A `RiskManager` freshly constructed with the default configuration. -/
def rmDefault : RiskManager := {}

/-- A default account whose trading has been suspended by the daily loss
limit, used to exercise the suspension path concretely. -/
def rmSuspended : RiskManager :=
  { rmDefault with trading_suspended := true
                   suspension_reason := "Daily loss limit exceeded" }

/-- Sum of `quantity * current_price` over a list of positions. -/
def positionsValue (ps : List Position) : ℚ :=
  (ps.map (fun p => (p.quantity : ℚ) * p.current_price)).sum

/-- The `RiskManager.get_current_portfolio_value` (lines 598-601):
cash plus the mark value of every open position. -/
def RiskManager.get_current_portfolio_value (rm : RiskManager) : ℚ :=
  rm.cash_available + positionsValue rm.positions

/-- The `RiskManager._calculate_symbol_concentration` (lines 329-337). -/
def RiskManager.calculate_symbol_concentration (rm : RiskManager) (symbol : String) : ℚ :=
  match rm.positions.find? (fun p => p.symbol == symbol) with
  | none => 0
  | some p =>
    let position_value := (p.quantity : ℚ) * p.current_price
    let portfolio_value := rm.get_current_portfolio_value
    if 0 < portfolio_value then position_value / portfolio_value else 0

/-- Result of `calculate_position_size`: position size in dollars, number
of shares, and the `constraints` list of the risk-analysis dictionary. -/
structure SizeResult where
  position_size : ℚ
  shares : ℤ
  constraints : List String
deriving Repr, DecidableEq

/-- The `RiskManager.calculate_position_size` (risk_management.py lines
226-327).  `account_balance = none` models the Python default `None`
(which makes the code use the current portfolio value), and
`symbol = none` models passing no symbol (skipping the concentration
check). -/
def RiskManager.calculate_position_size (rm : RiskManager)
    (signal_strength entry_price stop_loss : ℚ)
    (account_balance : Option ℚ) (symbol : Option String) : SizeResult :=
  let account_balance := account_balance.getD rm.get_current_portfolio_value
  if rm.trading_suspended then
    ⟨0, 0, ["Trading suspended: " ++ rm.suspension_reason]⟩
  else
  let risk_per_share := |entry_price - stop_loss|
  if risk_per_share ≤ 0 then
    ⟨0, 0, ["Invalid stop loss - no risk defined"]⟩
  else
  let max_risk_amount := account_balance * (rm.max_position_risk / 100)
  let max_shares_by_risk := pyInt (max_risk_amount / risk_per_share)
  let max_position_value := account_balance * (rm.max_position_pct / 100)
  let max_shares_by_size := pyInt (max_position_value / entry_price)
  let base_signal : ℚ := 60
  let max_signal : ℚ := 100
  if signal_strength < base_signal then
    ⟨0, 0, ["Signal strength too low"]⟩
  else
  let strength_multiplier := (signal_strength - base_signal) / (max_signal - base_signal)
  let strength_multiplier := max (1/2) (min (3/2) (1/2 + strength_multiplier))
  let reserve_cash := account_balance * (rm.reserve_cash_pct / 100)
  let available_cash := rm.cash_available - reserve_cash
  if available_cash ≤ 0 then
    ⟨0, 0, ["Insufficient cash available"]⟩
  else
  let concentration :=
    match symbol with
    | some s =>
      if 3/20 < rm.calculate_symbol_concentration s then
        (((1 : ℚ)/2), ["High concentration in " ++ s])
      else ((1 : ℚ), ([] : List String))
    | none => ((1 : ℚ), ([] : List String))
  let concentration_multiplier := concentration.1
  let constraints := concentration.2
  let shares_by_cash := pyInt (available_cash / entry_price)
  let final_shares := min max_shares_by_risk (min max_shares_by_size shares_by_cash)
  let final_shares := pyInt ((final_shares : ℚ) * strength_multiplier * concentration_multiplier)
  if (final_shares : ℚ) * entry_price < 100 then
    ⟨0, 0, constraints ++ ["Position too small"]⟩
  else
    ⟨(final_shares : ℚ) * entry_price, final_shares, constraints⟩

/-- The `RiskManager.check_pdt_compliance` (lines 339-369).  `now` models
`datetime.now()`.  Returns the updated manager (the rolling 7-day filter
mutates `day_trades`), whether day trades are allowed, and how many
remain. -/
def RiskManager.check_pdt_compliance (rm : RiskManager) (now : ℤ) :
    RiskManager × Bool × ℤ :=
  let cutoff_date := now - 7
  let day_trades := rm.day_trades.filter (fun dt => cutoff_date < dt)
  let rm := { rm with day_trades := day_trades }
  let portfolio_value := rm.get_current_portfolio_value
  if rm.account_minimum ≤ portfolio_value then
    (rm, true, 999)
  else
    let remaining_trades := max 0 (rm.pdt_limit - (day_trades.length : ℤ))
    (rm, if 0 < remaining_trades then true else false, remaining_trades)

/-- The `RiskManager.add_position` (lines 371-420): validate, then append the
position (marked at its entry price) and deduct its cost from cash. -/
def RiskManager.add_position (rm : RiskManager) (symbol : String)
    (entry_price : ℚ) (quantity : ℤ) (position_type : String)
    (stop_loss target : ℚ) (strategy : String) (now : ℤ) :
    RiskManager × Bool :=
  if quantity ≤ 0 ∨ entry_price ≤ 0 then (rm, false)
  else if (rm.positions.find? (fun p => p.symbol == symbol)).isSome then (rm, false)
  else
    let position_cost := (quantity : ℚ) * entry_price
    if rm.cash_available < position_cost then (rm, false)
    else
      let position : Position :=
        { symbol := symbol, entry_date := now, entry_price := entry_price,
          quantity := quantity, position_type := position_type,
          stop_loss := stop_loss, target := target, strategy := strategy,
          current_price := entry_price }
      ({ rm with positions := rm.positions ++ [position],
                 cash_available := rm.cash_available - position_cost }, true)

/-- Helper of `RiskManager._calculate_max_drawdown` (lines 553-568): walk
the equity values tracking the running peak and the largest drawdown. -/
def maxDrawdownAux : List ℚ → ℚ → ℚ → ℚ
  | [], _, max_dd => max_dd
  | e :: rest, peak, max_dd =>
    let peak := if peak < e then e else peak
    let drawdown := (peak - e) / peak
    maxDrawdownAux rest peak (max max_dd drawdown)

/-- The `RiskManager._calculate_max_drawdown` (lines 553-568), as a
percentage. -/
def RiskManager.calculate_max_drawdown (rm : RiskManager) : ℚ :=
  match rm.equity_curve with
  | [] => 0
  | [_] => 0
  | e₀ :: rest => maxDrawdownAux (e₀ :: rest) e₀ 0 * 100

/-- The `RiskManager._check_trading_suspension` (lines 570-596).  Of the risk
metrics recomputed there only the max drawdown feeds the decision. -/
def RiskManager.check_trading_suspension (rm : RiskManager) : RiskManager :=
  if rm.daily_pnl ≤ -rm.max_daily_loss then
    { rm with trading_suspended := true,
              suspension_reason := "Daily loss limit exceeded" }
  else if rm.max_consecutive_losses ≤ rm.consecutive_losses then
    { rm with trading_suspended := true,
              suspension_reason := "Too many consecutive losses" }
  else if 20 < rm.calculate_max_drawdown then
    { rm with trading_suspended := true,
              suspension_reason := "Portfolio drawdown too high" }
  else if rm.trading_suspended then
    { rm with trading_suspended := false, suspension_reason := "" }
  else rm

/-- The `RiskManager.close_position` (lines 429-485).  `now` models
`datetime.now()`; a close on the entry date records a day trade. -/
def RiskManager.close_position (rm : RiskManager) (symbol : String)
    (exit_price : ℚ) (now : ℤ) : RiskManager × Bool × ℚ :=
  match rm.positions.find? (fun p => p.symbol == symbol) with
  | none => (rm, false, 0)
  | some position =>
    let pnl :=
      if position.position_type = "long" then
        (exit_price - position.entry_price) * (position.quantity : ℚ)
      else (position.entry_price - exit_price) * (position.quantity : ℚ)
    let proceeds := (position.quantity : ℚ) * exit_price
    let rm := { rm with cash_available := rm.cash_available + proceeds }
    let rm := { rm with daily_pnl := rm.daily_pnl + pnl,
                        realized_pnl := rm.realized_pnl + pnl }
    let rm :=
      if position.entry_date = now then
        { rm with day_trades := rm.day_trades ++ [now] }
      else rm
    let rm :=
      if pnl < 0 then { rm with consecutive_losses := rm.consecutive_losses + 1 }
      else { rm with consecutive_losses := 0 }
    let rm := rm.check_trading_suspension
    let rm := { rm with positions := rm.positions.eraseP (fun p => p.symbol == symbol) }
    (rm, true, pnl)

end RH

namespace BT

/-- One OHLC bar of a symbol's price DataFrame (`backtester.py` reads the
`Open`, `High`, `Low`, `Close` columns; `open` is a Lean keyword, hence
`open_price`). -/
structure Bar where
  open_price : ℚ
  high : ℚ
  low : ℚ
  close : ℚ
deriving Repr, DecidableEq

/-- One row of the signals DataFrame.  `date`, `symbol` and `strength` are
read by indexing (required); `stop_loss`, `target` and `strategy` are read
with `signal.get(..., default)`, modelled by `Option` with the code's
defaults applied at the use sites. -/
structure Signal where
  date : ℤ
  symbol : String
  strength : ℚ
  stop_loss : Option ℚ := none
  target : Option ℚ := none
  strategy : Option String := none
deriving Repr, DecidableEq

/-- The `price_data`: per-symbol bar series, each in ascending date order
(the DataFrame's date index). -/
abbrev PriceData := List (String × List (ℤ × Bar))

/-- The `symbol in price_data` plus `price_data[symbol]`. -/
def lookupSymbol (price_data : PriceData) (symbol : String) : Option (List (ℤ × Bar)) :=
  (price_data.find? (fun x => x.1 == symbol)).map (fun x => x.2)

/-- The `symbol_data[symbol_data.index <= d].iloc[-1]`: the last bar dated on
or before `d`. -/
def lastBarOnOrBefore (bars : List (ℤ × Bar)) (d : ℤ) : Option Bar :=
  ((bars.filter (fun b => decide (b.1 ≤ d))).getLast?).map (fun b => b.2)

/-- The `symbol_data[symbol_data.index >= d].iloc[0]`: the first bar dated on
or after `d`, with its date. -/
def firstBarOnOrAfter (bars : List (ℤ × Bar)) (d : ℤ) : Option (ℤ × Bar) :=
  bars.find? (fun b => decide (d ≤ b.1))

/-- The position dictionary built in `BacktestEngine._process_signal`
(backtester.py lines 194-207). -/
structure BTPosition where
  symbol : String
  entry_date : ℤ
  entry_price : ℚ
  quantity : ℤ
  direction : String
  stop_loss : ℚ
  target : ℚ
  strategy : String
  max_favorable : ℚ
  max_adverse : ℚ
  initial_capital : ℚ
deriving Repr, DecidableEq

/-- The `Trade` dataclass (backtester.py lines 56-73). -/
structure Trade where
  entry_date : ℤ
  exit_date : ℤ
  symbol : String
  strategy : String
  direction : String
  entry_price : ℚ
  exit_price : ℚ
  quantity : ℤ
  commission : ℚ
  pnl : ℚ
  pnl_pct : ℚ
  duration_days : ℤ
  max_favorable_excursion : ℚ
  max_adverse_excursion : ℚ
  exit_reason : String
deriving Repr, DecidableEq

/-- One `trade_log` entry (dicts appended at lines 217-225 and 325-334). -/
structure LogEntry where
  date : ℤ
  symbol : String
  action : String
  quantity : ℤ
  price : ℚ
  value : ℚ
  pnl : Option ℚ := none
  commission : ℚ
deriving Repr, DecidableEq

/-- One `equity_curve` entry (dict appended at lines 388-393). -/
structure EquityPoint where
  date : ℤ
  equity : ℚ
  cash : ℚ
  positions_value : ℚ
deriving Repr, DecidableEq

/-- The `BacktestEngine` state: the four constructor parameters, the five
mutable state fields reset by `_reset_backtest`, and the three risk
parameters fixed in `__init__` (backtester.py lines 80-100).  Defaults
are the constructor defaults. -/
structure Engine where
  initial_capital : ℚ := 10000
  commission_per_trade : ℚ := 0
  position_sizing : String := "fixed_percent"
  position_size_pct : ℚ := 1/10
  current_capital : ℚ := 10000
  positions : List (String × BTPosition) := []
  trades : List Trade := []
  equity_curve : List EquityPoint := []
  trade_log : List LogEntry := []
  max_position_risk : ℚ := 1/50
  max_total_risk : ℚ := 3/50
  min_trade_size : ℚ := 100
deriving Repr, DecidableEq

/-- The `BacktestEngine.__init__` (lines 80-100). -/
def mkEngine (initial_capital commission_per_trade : ℚ) (position_sizing : String)
    (position_size_pct : ℚ) : Engine :=
  { initial_capital := initial_capital
    commission_per_trade := commission_per_trade
    position_sizing := position_sizing
    position_size_pct := position_size_pct
    current_capital := initial_capital
    positions := []
    trades := []
    equity_curve := []
    trade_log := []
    max_position_risk := 1/50
    max_total_risk := 3/50
    min_trade_size := 100 }

/-- A `BacktestEngine` freshly constructed with all constructor defaults. -/
def engineDefault : Engine := {}

/-- A concrete long position of 10 shares entered at 100 with stop 95 and
target 110, used to exercise the backtester paths on explicit inputs. -/
def aaplPosition : BTPosition :=
  { symbol := "AAPL", entry_date := 0, entry_price := 100, quantity := 10,
    direction := "long", stop_loss := 95, target := 110,
    strategy := "momentum", max_favorable := 0, max_adverse := 0,
    initial_capital := 10000 }

/-- An engine holding `aaplPosition` with 9000 cash remaining. -/
def engineHolding : Engine :=
  { current_capital := 9000, positions := [("AAPL", aaplPosition)] }

/-- A one-day bar whose intraday low (94) touches `aaplPosition`'s stop
(95) while the close (100) stays above it. -/
def aaplTouchBar : Bar := { open_price := 100, high := 101, low := 94, close := 100 }

/-- Price data consisting of `aaplTouchBar` on day 1. -/
def aaplPriceData : PriceData := [("AAPL", [(1, aaplTouchBar)])]

/-- The `BacktestEngine._reset_backtest` (lines 149-155). -/
def Engine.reset_backtest (e : Engine) : Engine :=
  { e with current_capital := e.initial_capital, positions := [], trades := [],
           equity_curve := [], trade_log := [] }

/-- The `BacktestEngine._calculate_position_size` (lines 349-375): the
backtester's own sizing formula. -/
def Engine.calculate_position_size (e : Engine)
    (signal_strength entry_price stop_loss : ℚ) : ℚ :=
  let risk_per_share := |entry_price - stop_loss|
  if risk_per_share = 0 then e.min_trade_size
  else
    let max_risk_amount := e.current_capital * e.max_position_risk
    let max_shares_by_risk := pyInt (max_risk_amount / risk_per_share)
    let base_position_pct := e.position_size_pct
    let strength_multiplier := signal_strength / 100
    let adjusted_position_pct := base_position_pct * strength_multiplier
    let position_size_by_pct := e.current_capital * adjusted_position_pct
    let max_shares_by_pct := pyInt (position_size_by_pct / entry_price)
    let final_shares := min max_shares_by_risk max_shares_by_pct
    let final_position_size := (final_shares : ℚ) * entry_price
    max final_position_size e.min_trade_size

/-- The `BacktestEngine._process_signal` (lines 157-225): enter at the next
day's open unless a position in the symbol exists or data is missing. -/
def Engine.process_signal (e : Engine) (signal : Signal) (price_data : PriceData)
    (current_date : ℤ) : Engine :=
  let symbol := signal.symbol
  if (e.positions.find? (fun x => x.1 == symbol)).isSome then e
  else
    match lookupSymbol price_data symbol with
    | none => e
    | some symbol_data =>
      let next_date := current_date + 1
      match firstBarOnOrAfter symbol_data next_date with
      | none => e
      | some entry_bar =>
        let entry_price := entry_bar.2.open_price
        let position_size := e.calculate_position_size signal.strength entry_price
          (signal.stop_loss.getD (entry_price * (19/20)))
        if position_size < e.min_trade_size then e
        else
          let quantity := pyInt (position_size / entry_price)
          if quantity = 0 then e
          else
            let position : BTPosition :=
              { symbol := symbol, entry_date := next_date, entry_price := entry_price,
                quantity := quantity, direction := "long",
                stop_loss := signal.stop_loss.getD (entry_price * (19/20)),
                target := signal.target.getD (entry_price * (11/10)),
                strategy := signal.strategy.getD "unknown",
                max_favorable := 0, max_adverse := 0,
                initial_capital := e.current_capital }
            let cost := (quantity : ℚ) * entry_price + e.commission_per_trade
            { e with
              current_capital := e.current_capital - cost
              positions := e.positions ++ [(symbol, position)]
              trade_log := e.trade_log ++
                [{ date := next_date, symbol := symbol, action := "BUY",
                   quantity := quantity, price := entry_price,
                   value := (quantity : ℚ) * entry_price,
                   commission := e.commission_per_trade }] }

/-- The MFE/MAE update of `_update_positions` (lines 245-254), applied to
the day's high and low. -/
def updateExcursions (position : BTPosition) (high_price low_price : ℚ) : BTPosition :=
  let favorable_move :=
    if position.direction = "long" then high_price - position.entry_price
    else position.entry_price - low_price
  let adverse_move :=
    if position.direction = "long" then position.entry_price - low_price
    else high_price - position.entry_price
  { position with max_favorable := max position.max_favorable favorable_move,
                  max_adverse := max position.max_adverse adverse_move }

/-- The exit decision of `_update_positions` (lines 256-273): stop and
target are tested against the day's close, and a holding period of 30
days or more overwrites any reason with `time_limit`. -/
def exitCheck (position : BTPosition) (current_price : ℚ) (days_held : ℤ) :
    Option String :=
  let exit_reason : Option String :=
    if position.direction = "long" then
      if current_price ≤ position.stop_loss then some "stop_loss"
      else if position.target ≤ current_price then some "target"
      else none
    else
      if position.stop_loss ≤ current_price then some "stop_loss"
      else if current_price ≤ position.target then some "target"
      else none
  if 30 ≤ days_held then some "time_limit" else exit_reason

/-- The `BacktestEngine._close_position` (lines 282-337). -/
def Engine.close_position (e : Engine) (symbol : String) (exit_price : ℚ)
    (exit_date : ℤ) (exit_reason : String) : Engine :=
  match (e.positions.find? (fun x => x.1 == symbol)).map (fun x => x.2) with
  | none => e
  | some position =>
    let pnl :=
      if position.direction = "long" then
        (exit_price - position.entry_price) * (position.quantity : ℚ)
      else (position.entry_price - exit_price) * (position.quantity : ℚ)
    let pnl := pnl - e.commission_per_trade
    let pnl_pct := pnl / (position.entry_price * (position.quantity : ℚ)) * 100
    let proceeds := (position.quantity : ℚ) * exit_price - e.commission_per_trade
    let trade : Trade :=
      { entry_date := position.entry_date, exit_date := exit_date, symbol := symbol,
        strategy := position.strategy, direction := position.direction,
        entry_price := position.entry_price, exit_price := exit_price,
        quantity := position.quantity, commission := e.commission_per_trade * 2,
        pnl := pnl, pnl_pct := pnl_pct,
        duration_days := exit_date - position.entry_date,
        max_favorable_excursion := position.max_favorable,
        max_adverse_excursion := position.max_adverse,
        exit_reason := exit_reason }
    { e with
      current_capital := e.current_capital + proceeds
      trades := e.trades ++ [trade]
      trade_log := e.trade_log ++
        [{ date := exit_date, symbol := symbol, action := "SELL",
           quantity := position.quantity, price := exit_price,
           value := (position.quantity : ℚ) * exit_price,
           pnl := some pnl, commission := e.commission_per_trade }]
      positions := e.positions.eraseP (fun x => x.1 == symbol) }

/-- The `BacktestEngine._update_positions` (lines 227-280): first every held
position is marked against its last bar on or before `current_date`
(MFE/MAE update) and its exit decision recorded, then the collected exits
are closed at the day's close price. -/
def Engine.update_positions (e : Engine) (price_data : PriceData)
    (current_date : ℤ) : Engine :=
  let pass := e.positions.map (fun sp =>
    match lookupSymbol price_data sp.1 with
    | none => (sp, none)
    | some symbol_data =>
      match lastBarOnOrBefore symbol_data current_date with
      | none => (sp, none)
      | some bar =>
        let position := updateExcursions sp.2 bar.high bar.low
        let exit_reason := exitCheck position bar.close (current_date - position.entry_date)
        ((sp.1, position), exit_reason.map (fun r => (bar.close, r))))
  let e := { e with positions := pass.map (fun x => x.1) }
  pass.foldl (fun e x =>
    match x.2 with
    | some pr => e.close_position x.1.1 pr.1 current_date pr.2
    | none => e) e

/-- The `BacktestEngine._close_all_positions` (lines 339-347). -/
def Engine.close_all_positions (e : Engine) (price_data : PriceData)
    (end_date : ℤ) : Engine :=
  (e.positions.map (fun x => x.1)).foldl (fun e symbol =>
    match lookupSymbol price_data symbol with
    | none => e
    | some symbol_data =>
      match lastBarOnOrBefore symbol_data end_date with
      | none => e
      | some bar => e.close_position symbol bar.close end_date "backtest_end") e

/-- The `BacktestEngine._record_daily_equity` (lines 377-393): positions are
valued at their ENTRY price (the code's own comment concedes a real
implementation would use current market values). -/
def Engine.record_daily_equity (e : Engine) (current_date : ℤ) : Engine :=
  let position_value :=
    (e.positions.map (fun sp => (sp.2.quantity : ℚ) * sp.2.entry_price)).sum
  let total_equity := e.current_capital + position_value
  { e with equity_curve := e.equity_curve ++
      [{ date := current_date, equity := total_equity,
         cash := e.current_capital, positions_value := position_value }] }

/-- The `pandas.Series.pct_change().dropna()` over the equity values. -/
def pctChange : List ℚ → List ℚ
  | [] => []
  | [_] => []
  | a :: b :: rest => (b - a) / a :: pctChange (b :: rest)

/-- Expanding-peak drawdown percentages over the cumulative equity values
(lines 451-454); the accumulator is the running peak. -/
def drawdownList : List ℚ → ℚ → List ℚ
  | [], _ => []
  | c :: rest, peak =>
    let peak := max peak c
    ((c - peak) / peak * 100) :: drawdownList rest peak

/-- Minimum of a list (0 on the empty list, which the code never takes). -/
def listMin : List ℚ → ℚ
  | [] => 0
  | x :: xs => xs.foldl min x

/-- The `numpy.mean` over a list of rationals. -/
def listMean (l : List ℚ) : ℚ := l.sum / (l.length : ℚ)

/-- The consecutive win/loss scan of `_calculate_results` (lines 499-513):
returns (max consecutive wins, max consecutive losses). -/
def consecutiveStats (trades : List Trade) : ℕ × ℕ :=
  let r := trades.foldl
    (fun (acc : ℕ × ℕ × ℕ × ℕ) (t : Trade) =>
      let cw := acc.1
      let cl := acc.2.1
      let mw := acc.2.2.1
      let ml := acc.2.2.2
      if 0 < t.pnl then (cw + 1, 0, max mw (cw + 1), ml)
      else (0, cl + 1, mw, max ml (cl + 1)))
    (0, 0, 0, 0)
  (r.2.2.1, r.2.2.2)

/-- The `BacktestResult` (backtester.py lines 14-54), restricted to the
aggregates computable in exact arithmetic, together with the data the
remaining aggregates are functions of.  `annual_return`, `volatility`,
`sharpe_ratio`, `sortino_ratio`, `calmar_ratio`, `var_95` and
`monthly_returns` need real exponentiation, square roots, percentile
interpolation or calendar months; each is a deterministic function of
the fields carried here (`start_date`, `end_date`, `total_return`,
`max_drawdown`, `daily_returns`, `equity_curve`), so equality of this
structure implies equality of every Python aggregate.  `profit_factor`
is `none` where the Python code yields `float(inf)`. -/
structure BacktestResult where
  strategy_name : String
  start_date : ℤ
  end_date : ℤ
  total_trades : ℕ
  winning_trades : ℕ
  losing_trades : ℕ
  win_rate : ℚ
  total_return : ℚ
  max_drawdown : ℚ
  profit_factor : Option ℚ
  avg_win : ℚ
  avg_loss : ℚ
  avg_trade : ℚ
  max_consecutive_wins : ℕ
  max_consecutive_losses : ℕ
  trades : List Trade
  equity_curve : List EquityPoint
  daily_returns : List ℚ
deriving Repr, DecidableEq

/-- The `BacktestEngine._calculate_results` (lines 395-553), restricted as
described on `BacktestResult`.  With no trades the Python code returns
the all-zero result with EMPTY equity data, whatever `equity_curve`
holds. -/
def Engine.calculate_results (e : Engine) (strategy_name : String)
    (start_date end_date : ℤ) : BacktestResult :=
  if e.trades.isEmpty then
    { strategy_name := strategy_name, start_date := start_date, end_date := end_date,
      total_trades := 0, winning_trades := 0, losing_trades := 0, win_rate := 0,
      total_return := 0, max_drawdown := 0, profit_factor := some 0,
      avg_win := 0, avg_loss := 0, avg_trade := 0,
      max_consecutive_wins := 0, max_consecutive_losses := 0,
      trades := [], equity_curve := [], daily_returns := [] }
  else
    let trades := e.trades
    let total_trades := trades.length
    let winning_pnls := (trades.filter (fun t => decide (0 < t.pnl))).map (fun t => t.pnl)
    let losing_pnls := (trades.filter (fun t => decide (t.pnl < 0))).map (fun t => t.pnl)
    let winning_trades := winning_pnls.length
    let losing_trades := losing_pnls.length
    let win_rate :=
      if 0 < total_trades then (winning_trades : ℚ) / (total_trades : ℚ) * 100 else 0
    let total_pnl := (trades.map (fun t => t.pnl)).sum
    let total_return := total_pnl / e.initial_capital * 100
    let equities := e.equity_curve.map (fun p => p.equity)
    let daily_returns := pctChange equities
    let max_drawdown :=
      match equities.map (fun q => q / e.initial_capital) with
      | [] => 0
      | c :: cums => listMin (drawdownList (c :: cums) c)
    let avg_win := if winning_pnls.isEmpty then 0 else listMean winning_pnls
    let avg_loss := if losing_pnls.isEmpty then 0 else listMean losing_pnls
    let avg_trade := if 0 < total_trades then total_pnl / (total_trades : ℚ) else 0
    let gross_profit := winning_pnls.sum
    let gross_loss := |losing_pnls.sum|
    let profit_factor := if 0 < gross_loss then some (gross_profit / gross_loss) else none
    let cons := consecutiveStats trades
    { strategy_name := strategy_name, start_date := start_date, end_date := end_date,
      total_trades := total_trades, winning_trades := winning_trades,
      losing_trades := losing_trades, win_rate := win_rate,
      total_return := total_return, max_drawdown := max_drawdown,
      profit_factor := profit_factor, avg_win := avg_win, avg_loss := avg_loss,
      avg_trade := avg_trade, max_consecutive_wins := cons.1,
      max_consecutive_losses := cons.2, trades := trades,
      equity_curve := e.equity_curve, daily_returns := daily_returns }

/-- The `pd.date_range(start, end, freq='D')`: every day from `start_date` to
`end_date` inclusive. -/
def dateRange (start_date end_date : ℤ) : List ℤ :=
  (List.range (end_date - start_date + 1).toNat).map (fun i => start_date + (i : ℤ))

/-- The `BacktestEngine.run_backtest` (lines 102-147).  Day numbers are taken
with day 0 a Monday, so `current_date.weekday() >= 5` (weekend skip)
becomes `5 ≤ current_date % 7`. -/
def Engine.run_backtest (e : Engine) (signals : List Signal) (price_data : PriceData)
    (start_date end_date : ℤ) (strategy_name : String) : BacktestResult :=
  let e := e.reset_backtest
  let signals := signals.filter (fun s => decide (start_date ≤ s.date ∧ s.date ≤ end_date))
  let e := (dateRange start_date end_date).foldl
    (fun e current_date =>
      if 5 ≤ current_date % 7 then e
      else
        let daily_signals := signals.filter (fun s => s.date == current_date)
        let e := daily_signals.foldl
          (fun e s => e.process_signal s price_data current_date) e
        let e := e.update_positions price_data current_date
        e.record_daily_equity current_date) e
  let e := e.close_all_positions price_data end_date
  e.calculate_results strategy_name start_date end_date

end BT

/-! ## Helper lemmas -/

theorem pyInt_le_self (q : ℚ) (h : 0 ≤ q) : (pyInt q : ℚ) ≤ q := by
  unfold pyInt
  rw [if_pos h]
  exact Int.floor_le q

theorem pyInt_pos_arg (q : ℚ) (h : 0 < pyInt q) : 0 < q := by
  by_contra hq
  push_neg at hq
  unfold pyInt at h
  rcases lt_or_eq_of_le hq with hlt | heq
  · rw [if_neg (not_le.mpr hlt)] at h
    have hc : ⌈q⌉ ≤ 0 := Int.ceil_le.mpr (by exact_mod_cast hq)
    omega
  · subst heq
    norm_num at h

/-- Core estimate for the amended C1: a share count obtained by
truncating `K * sm * cm` (a capped share count `K ≤ m = pyInt A` scaled
by a multiplier `sm ≤ 3/2` and `cm ≤ 1`) stays below `3/2 * A` whenever
it is positive. -/
theorem pyInt_scaled_le (K m : ℤ) (sm cm A : ℚ)
    (hKm : K ≤ m) (hmA : m = pyInt A)
    (hsm₀ : 0 < sm) (hsm₁ : sm ≤ 3/2) (hcm₀ : 0 < cm) (hcm₁ : cm ≤ 1)
    (hpos : 0 < pyInt ((K : ℚ) * sm * cm)) :
    (pyInt ((K : ℚ) * sm * cm) : ℚ) ≤ 3/2 * A := by
  have hX : 0 < (K : ℚ) * sm * cm := pyInt_pos_arg _ hpos
  have hK : 0 < (K : ℚ) := by
    by_contra hK
    push_neg at hK
    have hsc : 0 < sm * cm := mul_pos hsm₀ hcm₀
    have hKsc : (K : ℚ) * (sm * cm) ≤ 0 := mul_nonpos_iff.mpr (Or.inr ⟨hK, hsc.le⟩)
    have hXeq : (K : ℚ) * sm * cm = (K : ℚ) * (sm * cm) := by ring
    rw [hXeq] at hX
    linarith
  have hKz : (0 : ℤ) < K := by exact_mod_cast hK
  have hm : 0 < m := lt_of_lt_of_le hKz hKm
  have hA : 0 < A := pyInt_pos_arg _ (hmA ▸ hm)
  have hmle : (m : ℚ) ≤ A := by
    have hle := pyInt_le_self A hA.le
    rw [← hmA] at hle
    exact hle
  have h1 : (pyInt ((K : ℚ) * sm * cm) : ℚ) ≤ (K : ℚ) * sm * cm :=
    pyInt_le_self _ hX.le
  have hKm' : (K : ℚ) ≤ (m : ℚ) := by exact_mod_cast hKm
  have h2 : (K : ℚ) * sm * cm ≤ (K : ℚ) * sm :=
    mul_le_of_le_one_right (by positivity) hcm₁
  have h3 : (K : ℚ) * sm ≤ (K : ℚ) * (3/2) :=
    mul_le_mul_of_nonneg_left hsm₁ hK.le
  have h4 : (K : ℚ) * (3/2) ≤ (m : ℚ) * (3/2) :=
    mul_le_mul_of_nonneg_right hKm' (by norm_num)
  have h5 : (m : ℚ) * (3/2) ≤ A * (3/2) :=
    mul_le_mul_of_nonneg_right hmle (by norm_num)
  linarith

/-- The success branch of `calculate_position_size`: the truncated,
multiplier-scaled minimum of the three share caps satisfies both caps up
to the factor `3/2`, where `c` is the cash-based share cap and `cm` the
concentration multiplier. -/
theorem sizing_success_caps (bal entry_price rps sm cm mpp mpr : ℚ) (c : ℤ)
    (hrps : 0 < rps) (hsm₀ : 0 < sm) (hsm₁ : sm ≤ 3/2) (hcm₀ : 0 < cm) (hcm₁ : cm ≤ 1)
    (h : 0 < pyInt ((↑(min (pyInt (bal * (mpr / 100) / rps))
          (min (pyInt (bal * (mpp / 100) / entry_price)) c)) : ℚ) * sm * cm))
    (h100 : 100 ≤ (pyInt ((↑(min (pyInt (bal * (mpr / 100) / rps))
          (min (pyInt (bal * (mpp / 100) / entry_price)) c)) : ℚ) * sm * cm) : ℚ) * entry_price) :
    ((pyInt ((↑(min (pyInt (bal * (mpr / 100) / rps))
          (min (pyInt (bal * (mpp / 100) / entry_price)) c)) : ℚ) * sm * cm) : ℚ) * entry_price ≤
        3/2 * (bal * (mpp / 100))) ∧
    ((pyInt ((↑(min (pyInt (bal * (mpr / 100) / rps))
          (min (pyInt (bal * (mpp / 100) / entry_price)) c)) : ℚ) * sm * cm) : ℚ) * rps ≤
        3/2 * (bal * (mpr / 100))) := by
  set r := pyInt (bal * (mpr / 100) / rps) with hr
  set s := pyInt (bal * (mpp / 100) / entry_price) with hs
  have hpq : (0:ℚ) < (pyInt ((↑(min r (min s c)) : ℚ) * sm * cm) : ℚ) := by exact_mod_cast h
  have hep : 0 < entry_price := by
    by_contra hep
    push_neg at hep
    nlinarith
  have hb1 := pyInt_scaled_le (min r (min s c)) s sm cm _
      (le_trans (min_le_right _ _) (min_le_left _ _)) hs hsm₀ hsm₁ hcm₀ hcm₁ h
  have hb2 := pyInt_scaled_le (min r (min s c)) r sm cm _
      (min_le_left _ _) hr hsm₀ hsm₁ hcm₀ hcm₁ h
  constructor
  · have hmul := mul_le_mul_of_nonneg_right hb1 hep.le
    have heq : 3/2 * (bal * (mpp / 100) / entry_price) * entry_price
        = 3/2 * (bal * (mpp / 100)) := by
      rw [mul_assoc, div_mul_cancel₀ _ hep.ne']
    linarith
  · have hmul := mul_le_mul_of_nonneg_right hb2 hrps.le
    have heq : 3/2 * (bal * (mpr / 100) / rps) * rps
        = 3/2 * (bal * (mpr / 100)) := by
      rw [mul_assoc, div_mul_cancel₀ _ hrps.ne']
    linarith

/-- The exit decision of `_update_positions` for a long position, written
as one decision chain: the 30-day check, tested last with an
unconditional overwrite, takes precedence over the close-based stop and
target tests. -/
theorem exitCheck_long (p : BT.BTPosition) (c : ℚ) (dh : ℤ)
    (hdir : p.direction = "long") :
    BT.exitCheck p c dh =
      if 30 ≤ dh then some "time_limit"
      else if c ≤ p.stop_loss then some "stop_loss"
      else if p.target ≤ c then some "target"
      else none := by
  unfold BT.exitCheck
  rw [hdir]
  simp

/-! ## Claim theorems -/

/-- C6: whenever `trading_suspended` is set, `calculate_position_size`
returns zero shares and a constraint list containing the
trading-suspended entry, for every signal strength, entry price, stop
loss, account balance and symbol (the embedded function is total, so no
exception can be raised). -/
theorem suspended_sizing_rejects (rm : RH.RiskManager)
    (signal_strength entry_price stop_loss : ℚ)
    (account_balance : Option ℚ) (symbol : Option String)
    (h : rm.trading_suspended = true) :
    (rm.calculate_position_size signal_strength entry_price stop_loss
        account_balance symbol).shares = 0 ∧
    ("Trading suspended: " ++ rm.suspension_reason) ∈
      (rm.calculate_position_size signal_strength entry_price stop_loss
        account_balance symbol).constraints := by
  unfold RH.RiskManager.calculate_position_size
  rw [h]
  simp

/-- C6 witness: a concretely suspended account rejects a strong signal. -/
theorem suspended_sizing_rejects_witness :
    RH.rmSuspended.trading_suspended = true ∧
    (RH.rmSuspended.calculate_position_size 95 50 45 none none).shares = 0 ∧
    ("Trading suspended: " ++ RH.rmSuspended.suspension_reason) ∈
      (RH.rmSuspended.calculate_position_size 95 50 45 none none).constraints :=
  ⟨rfl, suspended_sizing_rejects _ 95 50 45 none none rfl⟩

/-- C9: closing a symbol with no open position returns `(false, 0)` and
returns the account state entirely unchanged (cash, positions, daily and
realized P&L, day-trade log, consecutive-loss counter and suspension
flag all keep their prior values). -/
theorem close_position_unknown_symbol_noop (rm : RH.RiskManager)
    (symbol : String) (exit_price : ℚ) (now : ℤ)
    (h : rm.positions.find? (fun p => p.symbol == symbol) = none) :
    rm.close_position symbol exit_price now = (rm, false, 0) := by
  unfold RH.RiskManager.close_position
  rw [h]

/-- C9 witness: closing a symbol on the default (empty) account. -/
theorem close_position_unknown_symbol_noop_witness :
    (RH.rmDefault.positions.find? (fun p => p.symbol == "AAPL") = none) ∧
    RH.rmDefault.close_position "AAPL" 123 5 = (RH.rmDefault, false, 0) :=
  ⟨rfl, close_position_unknown_symbol_noop _ _ _ _ rfl⟩

/-- C10: a successful `add_position` leaves the total portfolio value
(cash plus mark value of open positions) unchanged: cash drops by
`quantity * entry_price` while the new position enters the open set
marked at its entry price. -/
theorem add_position_preserves_portfolio_value (rm : RH.RiskManager)
    (symbol : String) (entry_price : ℚ) (quantity : ℤ) (position_type : String)
    (stop_loss target : ℚ) (strategy : String) (now : ℤ)
    (h : (rm.add_position symbol entry_price quantity position_type
            stop_loss target strategy now).2 = true) :
    (rm.add_position symbol entry_price quantity position_type
        stop_loss target strategy now).1.get_current_portfolio_value
      = rm.get_current_portfolio_value := by
  simp only [RH.RiskManager.add_position] at h ⊢
  split_ifs at h ⊢
  all_goals first
    | rfl
    | (simp only [RH.RiskManager.get_current_portfolio_value, RH.positionsValue,
          List.map_append, List.sum_append, List.map_cons, List.map_nil,
          List.sum_cons, List.sum_nil]
       ring)

/-- C10 witness: a concrete successful position entry on the default
account. -/
theorem add_position_preserves_portfolio_value_witness :
    (RH.rmDefault.add_position "AAPL" 150 10 "long" 145 160 "momentum" 0).2 = true ∧
    (RH.rmDefault.add_position "AAPL" 150 10 "long" 145 160 "momentum" 0).1.get_current_portfolio_value
      = RH.rmDefault.get_current_portfolio_value :=
  ⟨by with_unfolding_all decide,
   add_position_preserves_portfolio_value _ _ _ _ _ _ _ _ _ (by with_unfolding_all decide)⟩

/-- C8: MFE and MAE never decrease: for a single `update_price`, for any
sequence of `update_price` calls during a position's life, and for the
backtester's excursion update from a day's high and low. -/
theorem mfe_mae_monotone :
    (∀ (p : RH.Position) (c : ℚ),
      p.max_favorable_excursion ≤ (p.update_price c).max_favorable_excursion ∧
      p.max_adverse_excursion ≤ (p.update_price c).max_adverse_excursion) ∧
    (∀ (p : RH.Position) (prices : List ℚ),
      p.max_favorable_excursion ≤
        (prices.foldl RH.Position.update_price p).max_favorable_excursion ∧
      p.max_adverse_excursion ≤
        (prices.foldl RH.Position.update_price p).max_adverse_excursion) ∧
    (∀ (bp : BT.BTPosition) (high_price low_price : ℚ),
      bp.max_favorable ≤ (BT.updateExcursions bp high_price low_price).max_favorable ∧
      bp.max_adverse ≤ (BT.updateExcursions bp high_price low_price).max_adverse) := by
  have hstep : ∀ (p : RH.Position) (c : ℚ),
      p.max_favorable_excursion ≤ (p.update_price c).max_favorable_excursion ∧
      p.max_adverse_excursion ≤ (p.update_price c).max_adverse_excursion := by
    intro p c
    unfold RH.Position.update_price
    refine ⟨?_, ?_⟩ <;> (dsimp only; split_ifs <;> linarith)
  refine ⟨hstep, ?_, ?_⟩
  · intro p prices
    induction prices generalizing p with
    | nil => exact ⟨le_rfl, le_rfl⟩
    | cons c cs ih =>
      have h1 := hstep p c
      have h2 := ih (p.update_price c)
      exact ⟨le_trans h1.1 h2.1, le_trans h1.2 h2.2⟩
  · intro bp high_price low_price
    unfold BT.updateExcursions
    exact ⟨le_max_left _ _, le_max_left _ _⟩

/-- C4: with three day trades inside the rolling window on a non-exempt
account (portfolio value 10000 < 25000), `check_pdt_compliance` reports
that no day trade is allowed, yet `calculate_position_size` — which never
consults the day-trade state — still returns a positive share count with
an empty constraint list, identically for a same-day round trip and for
a multi-day swing entry (the function has no input distinguishing them). -/
theorem pdt_not_consulted_by_sizing :
    (({ RH.rmDefault with day_trades := [100, 101, 102] } :
        RH.RiskManager).check_pdt_compliance 103).2.1 = false ∧
    ({ RH.rmDefault with day_trades := [100, 101, 102] } :
        RH.RiskManager).get_current_portfolio_value < 25000 ∧
    ({ RH.rmDefault with day_trades := [100, 101, 102] } :
        RH.RiskManager).calculate_position_size 85 150 145 none none
      = ⟨900, 6, []⟩ := by
  refine ⟨?_, ?_, ?_⟩ <;> with_unfolding_all decide

/-- C5: `_record_daily_equity` values open positions at their ENTRY
price: an engine holding 10 shares entered at 100 with 9000 cash appends
equity 10000 regardless of any market price, whereas marking the
position to a day's close of 110 would give 10100. -/
theorem record_daily_equity_entry_price_bug :
    (BT.engineHolding.record_daily_equity 5).equity_curve =
      [{ date := 5, equity := 10000, cash := 9000, positions_value := 1000 }] ∧
    (9000 + 10 * 110 : ℚ) ≠ 10000 := by
  constructor
  · simp only [BT.engineHolding, BT.aaplPosition, BT.Engine.record_daily_equity,
      List.map_cons, List.map_nil, List.sum_cons, List.sum_nil, List.nil_append]
    norm_num
  · norm_num

/-- C1 counterexample: on the default account with a 100-strength signal,
entry 10 and stop 9, the returned 150 shares are worth 1500, exceeding
`max_position_pct` (10%) of the 10000 account value — the claimed cap
fails because the signal-strength multiplier (here 1.5) is applied after
the caps. -/
theorem sizing_cap_exceeded_counterexample :
    0 < (RH.rmDefault.calculate_position_size 100 10 9 (some 10000) none).shares ∧
    ¬ (((RH.rmDefault.calculate_position_size 100 10 9 (some 10000) none).shares : ℚ) * 10 ≤
        10000 * (RH.rmDefault.max_position_pct / 100)) := by
  refine ⟨?_, ?_⟩ <;> with_unfolding_all decide

/-- C1 (amended): when `calculate_position_size` returns a positive share
count, the returned shares satisfy both caps only up to the
signal-strength multiplier, which is clamped to [0.5, 1.5] and applied
AFTER the caps: `shares * entry_price` is at most `3/2` times
`max_position_pct` percent of the account value, and
`shares * risk_per_share` at most `3/2` times `max_position_risk`
percent of the account value. -/
theorem sizing_caps_hold_up_to_strength_multiplier (rm : RH.RiskManager)
    (signal_strength entry_price stop_loss : ℚ)
    (account_balance : Option ℚ) (symbol : Option String)
    (h : 0 < (rm.calculate_position_size signal_strength entry_price stop_loss
                account_balance symbol).shares) :
    (((rm.calculate_position_size signal_strength entry_price stop_loss
        account_balance symbol).shares : ℚ) * entry_price ≤
      3/2 * ((account_balance.getD rm.get_current_portfolio_value) *
        (rm.max_position_pct / 100))) ∧
    (((rm.calculate_position_size signal_strength entry_price stop_loss
        account_balance symbol).shares : ℚ) * |entry_price - stop_loss| ≤
      3/2 * ((account_balance.getD rm.get_current_portfolio_value) *
        (rm.max_position_risk / 100))) := by
  rcases symbol with _ | s
  · simp only [RH.RiskManager.calculate_position_size] at h ⊢
    split_ifs at h ⊢ with h1 h2 h3 h4 h5
    all_goals dsimp only at h ⊢
    all_goals try exact absurd h (lt_irrefl 0)
    push_neg at h2 h5
    exact sizing_success_caps _ _ _ _ _ _ _ _ h2
      (lt_of_lt_of_le (by norm_num) (le_max_left _ _))
      (max_le (by norm_num) (min_le_left _ _)) (by norm_num) (by norm_num) h h5
  · simp only [RH.RiskManager.calculate_position_size] at h ⊢
    split_ifs at h ⊢ with h1 h2 h3 h4 hconc h5 h6
    all_goals dsimp only at h ⊢
    all_goals try exact absurd h (lt_irrefl 0)
    · push_neg at h2 h5
      exact sizing_success_caps _ _ _ _ _ _ _ _ h2
        (lt_of_lt_of_le (by norm_num) (le_max_left _ _))
        (max_le (by norm_num) (min_le_left _ _)) (by norm_num) (by norm_num) h h5
    · push_neg at h2 h6
      exact sizing_success_caps _ _ _ _ _ _ _ _ h2
        (lt_of_lt_of_le (by norm_num) (le_max_left _ _))
        (max_le (by norm_num) (min_le_left _ _)) (by norm_num) (by norm_num) h h6

/-- C1 witness: the default account with a 100-strength signal, entry 10
and stop 9 returns 150 shares, within both scaled caps. -/
theorem sizing_caps_hold_up_to_strength_multiplier_witness :
    0 < (RH.rmDefault.calculate_position_size 100 10 9 (some 10000) none).shares ∧
    (((RH.rmDefault.calculate_position_size 100 10 9 (some 10000) none).shares : ℚ) * 10 ≤
      3/2 * (((some (10000:ℚ)).getD RH.rmDefault.get_current_portfolio_value) *
        (RH.rmDefault.max_position_pct / 100))) ∧
    (((RH.rmDefault.calculate_position_size 100 10 9 (some 10000) none).shares : ℚ) *
        |(10:ℚ) - 9| ≤
      3/2 * (((some (10000:ℚ)).getD RH.rmDefault.get_current_portfolio_value) *
        (RH.rmDefault.max_position_risk / 100))) :=
  ⟨by with_unfolding_all decide,
   (sizing_caps_hold_up_to_strength_multiplier RH.rmDefault 100 10 9 (some 10000) none
     (by with_unfolding_all decide)).1,
   (sizing_caps_hold_up_to_strength_multiplier RH.rmDefault 100 10 9 (some 10000) none
     (by with_unfolding_all decide)).2⟩

/-- C2 counterexample: a long position with stop 95 sees a bar whose
intraday low 94 touches the stop, yet `_update_positions` records no
trade and keeps the position open, because the exit test compares the
stop against the day's CLOSE (100), not the intraday low. -/
theorem exit_ignores_intraday_low_counterexample :
    BT.aaplTouchBar.low ≤ BT.aaplPosition.stop_loss ∧
    (BT.engineHolding.update_positions BT.aaplPriceData 1).trades = [] ∧
    (BT.engineHolding.update_positions BT.aaplPriceData 1).positions.map (fun x => x.1)
      = ["AAPL"] := by
  refine ⟨?_, ?_, ?_⟩ <;> with_unfolding_all decide

/-- C2 (amended): for an open long position processed on a day with bar
`b`, `_update_positions` evaluates exits against the day's CLOSE — stop
first (close ≤ stop), then target (close ≥ target) — while the 30-day
time limit, checked last with an unconditional overwrite, takes
precedence over both; the position exits at the day's close price in
every case, never at the stop or target price. -/
theorem update_positions_exits_on_close (e : BT.Engine) (sym : String)
    (p : BT.BTPosition) (price_data : BT.PriceData) (bars : List (ℤ × BT.Bar))
    (b : BT.Bar) (d : ℤ)
    (hpos : e.positions = [(sym, p)])
    (hdir : p.direction = "long")
    (hpd : BT.lookupSymbol price_data sym = some bars)
    (hbar : BT.lastBarOnOrBefore bars d = some b) :
    (30 ≤ d - p.entry_date →
      ((e.update_positions price_data d).trades.map (fun t => (t.exit_price, t.exit_reason))
        = e.trades.map (fun t => (t.exit_price, t.exit_reason)) ++ [(b.close, "time_limit")]) ∧
      (e.update_positions price_data d).positions = []) ∧
    (d - p.entry_date < 30 → b.close ≤ p.stop_loss →
      ((e.update_positions price_data d).trades.map (fun t => (t.exit_price, t.exit_reason))
        = e.trades.map (fun t => (t.exit_price, t.exit_reason)) ++ [(b.close, "stop_loss")]) ∧
      (e.update_positions price_data d).positions = []) ∧
    (d - p.entry_date < 30 → p.stop_loss < b.close → p.target ≤ b.close →
      ((e.update_positions price_data d).trades.map (fun t => (t.exit_price, t.exit_reason))
        = e.trades.map (fun t => (t.exit_price, t.exit_reason)) ++ [(b.close, "target")]) ∧
      (e.update_positions price_data d).positions = []) ∧
    (d - p.entry_date < 30 → p.stop_loss < b.close → b.close < p.target →
      (e.update_positions price_data d).trades = e.trades ∧
      (e.update_positions price_data d).positions
        = [(sym, BT.updateExcursions p b.high b.low)]) := by
  have hpe : (BT.updateExcursions p b.high b.low).entry_date = p.entry_date := rfl
  have hpdir : (BT.updateExcursions p b.high b.low).direction = p.direction := rfl
  have hpsl : (BT.updateExcursions p b.high b.low).stop_loss = p.stop_loss := rfl
  have hptg : (BT.updateExcursions p b.high b.low).target = p.target := rfl
  refine ⟨?_, ?_, ?_, ?_⟩
  · intro h30
    unfold BT.Engine.update_positions
    rw [hpos]
    simp only [List.map_cons, List.map_nil, hpd, hbar, List.foldl_cons, List.foldl_nil]
    rw [exitCheck_long _ _ _ (hpdir.trans hdir), hpe, hpsl, hptg, if_pos h30]
    simp only [Option.map_some']
    simp only [BT.Engine.close_position, List.find?, beq_self_eq_true, Option.map_some',
      List.eraseP, List.map_append, List.map_cons, List.map_nil]
    simp
  · intro h30 hstop
    unfold BT.Engine.update_positions
    rw [hpos]
    simp only [List.map_cons, List.map_nil, hpd, hbar, List.foldl_cons, List.foldl_nil]
    rw [exitCheck_long _ _ _ (hpdir.trans hdir), hpe, hpsl, hptg,
      if_neg (not_le.mpr h30), if_pos hstop]
    simp only [Option.map_some']
    simp only [BT.Engine.close_position, List.find?, beq_self_eq_true, Option.map_some',
      List.eraseP, List.map_append, List.map_cons, List.map_nil]
    simp
  · intro h30 hstop htgt
    unfold BT.Engine.update_positions
    rw [hpos]
    simp only [List.map_cons, List.map_nil, hpd, hbar, List.foldl_cons, List.foldl_nil]
    rw [exitCheck_long _ _ _ (hpdir.trans hdir), hpe, hpsl, hptg,
      if_neg (not_le.mpr h30), if_neg (not_le.mpr hstop), if_pos htgt]
    simp only [Option.map_some']
    simp only [BT.Engine.close_position, List.find?, beq_self_eq_true, Option.map_some',
      List.eraseP, List.map_append, List.map_cons, List.map_nil]
    simp
  · intro h30 hstop htgt
    unfold BT.Engine.update_positions
    rw [hpos]
    simp only [List.map_cons, List.map_nil, hpd, hbar, List.foldl_cons, List.foldl_nil]
    rw [exitCheck_long _ _ _ (hpdir.trans hdir), hpe, hpsl, hptg,
      if_neg (not_le.mpr h30), if_neg (not_le.mpr hstop), if_neg (not_le.mpr htgt)]
    simp only [Option.map_none']
    exact ⟨trivial, trivial⟩

/-- C2 witness: the concrete engine and bar of the counterexample hit the
no-exit branch (close between stop and target, day 1 of a 30-day life). -/
theorem update_positions_exits_on_close_witness :
    (BT.engineHolding.positions = [("AAPL", BT.aaplPosition)] ∧
     BT.aaplPosition.direction = "long" ∧
     BT.lookupSymbol BT.aaplPriceData "AAPL" = some [(1, BT.aaplTouchBar)] ∧
     BT.lastBarOnOrBefore [(1, BT.aaplTouchBar)] 1 = some BT.aaplTouchBar) ∧
    ((1 : ℤ) - BT.aaplPosition.entry_date < 30 →
      BT.aaplPosition.stop_loss < BT.aaplTouchBar.close →
      BT.aaplTouchBar.close < BT.aaplPosition.target →
      (BT.engineHolding.update_positions BT.aaplPriceData 1).trades
        = BT.engineHolding.trades ∧
      (BT.engineHolding.update_positions BT.aaplPriceData 1).positions
        = [("AAPL", BT.updateExcursions BT.aaplPosition BT.aaplTouchBar.high
            BT.aaplTouchBar.low)]) :=
  ⟨⟨rfl, rfl, by with_unfolding_all decide, by with_unfolding_all decide⟩,
   (update_positions_exits_on_close BT.engineHolding "AAPL" BT.aaplPosition
     BT.aaplPriceData [(1, BT.aaplTouchBar)] BT.aaplTouchBar 1 rfl rfl
     (by with_unfolding_all decide) (by with_unfolding_all decide)).2.2.2⟩

/-- C3 counterexample: on identical inputs (strength 100, entry 100,
stop 90, capital 10000) the backtester's sizing returns 1000 dollars
while the risk manager's returns 1500 — they do not share one sizing
logic. -/
theorem backtester_sizing_disagrees_counterexample :
    BT.engineDefault.calculate_position_size 100 100 90 ≠
      (RH.rmDefault.calculate_position_size 100 100 90 (some 10000) none).position_size := by
  with_unfolding_all decide

/-- C3 (amended): the backtester computes position sizes with its own
formula, which disagrees with the live risk manager's on identical
inputs (1000 vs 1500 dollars at strength 100, entry 100, stop 90,
capital 10000); the only component the two share is the risk-based share
cap, which both compute as the truncation of
`capital * risk-fraction / risk_per_share` whenever their
`max_position_risk` settings denote the same fraction. -/
theorem backtester_sizing_own_formula :
    BT.engineDefault.calculate_position_size 100 100 90 = 1000 ∧
    (RH.rmDefault.calculate_position_size 100 100 90 (some 10000) none).position_size = 1500 ∧
    (∀ (e : BT.Engine) (rm : RH.RiskManager) (entry_price stop_loss : ℚ),
      e.max_position_risk * 100 = rm.max_position_risk →
      pyInt (e.current_capital * e.max_position_risk / |entry_price - stop_loss|) =
        pyInt (e.current_capital * (rm.max_position_risk / 100) / |entry_price - stop_loss|)) := by
  refine ⟨by with_unfolding_all decide, by with_unfolding_all decide, ?_⟩
  intro e rm entry_price stop_loss hrisk
  rw [← hrisk]
  ring_nf

/-- C3 witness: the shared risk cap instantiated at the default engine
and default risk manager with entry 100 and stop 90. -/
theorem backtester_sizing_own_formula_witness :
    (BT.engineDefault.max_position_risk * 100 = RH.rmDefault.max_position_risk) ∧
    pyInt (BT.engineDefault.current_capital * BT.engineDefault.max_position_risk /
        |(100 : ℚ) - 90|) =
      pyInt (BT.engineDefault.current_capital * (RH.rmDefault.max_position_risk / 100) /
        |(100 : ℚ) - 90|) :=
  ⟨by with_unfolding_all decide,
   backtester_sizing_own_formula.2.2 BT.engineDefault RH.rmDefault 100 90
     (by with_unfolding_all decide)⟩

/-- C7: `run_backtest` is a function of the inputs and the constructor
parameters alone — two engines agreeing on the constructor parameters
but carrying arbitrary leftover mutable state (capital, positions,
trades, equity curve, trade log, e.g. from a previous run) produce
identical `BacktestResult`s on identical inputs, because
`_reset_backtest` overwrites every mutable field first. -/
theorem run_backtest_state_independent (e₁ e₂ : BT.Engine)
    (hic : e₁.initial_capital = e₂.initial_capital)
    (hcm : e₁.commission_per_trade = e₂.commission_per_trade)
    (hps : e₁.position_sizing = e₂.position_sizing)
    (hpct : e₁.position_size_pct = e₂.position_size_pct)
    (hmr : e₁.max_position_risk = e₂.max_position_risk)
    (hmt : e₁.max_total_risk = e₂.max_total_risk)
    (hmin : e₁.min_trade_size = e₂.min_trade_size)
    (signals : List BT.Signal) (price_data : BT.PriceData)
    (start_date end_date : ℤ) (strategy_name : String) :
    e₁.run_backtest signals price_data start_date end_date strategy_name =
      e₂.run_backtest signals price_data start_date end_date strategy_name := by
  have hreset : e₁.reset_backtest = e₂.reset_backtest := by
    unfold BT.Engine.reset_backtest
    cases e₁
    cases e₂
    simp_all
  unfold BT.Engine.run_backtest
  rw [hreset]

/-- C7 witness: an engine with leftover state (a held position and spent
capital) backtests identically to a fresh engine with the same
parameters. -/
theorem run_backtest_state_independent_witness :
    (BT.engineHolding.initial_capital = BT.engineDefault.initial_capital ∧
     BT.engineHolding.current_capital ≠ BT.engineDefault.current_capital) ∧
    BT.engineHolding.run_backtest [] [] 0 1 "s" =
      BT.engineDefault.run_backtest [] [] 0 1 "s" :=
  ⟨⟨rfl, by norm_num [BT.engineHolding, BT.engineDefault]⟩,
   run_backtest_state_independent _ _ rfl rfl rfl rfl rfl rfl rfl [] [] 0 1 "s"⟩
